import Mathlib

/-!
# Verification of the Catalog_of_Repos preview-generation pipeline

Shallow embedding of the repository's preview-generation scripts:

* `src/generate_preview_script.js` — the organization-listing variant
  (`fetchRepositories`, `generateHtmlContent`, `generatePreviewCard`,
  `removeDirectory`, `main`);
* `src/unnamed/part_000` — the static-list variant
  (`fetchRepositoryDetails` with its placeholder record, and its `main` loop);
* `src/unnamed/part_001` — the credential-scoped paginated variant
  (`fetchRepositoryNames`);
* `src/unnamed/part_002` — the clone-based variant (its public-org
  `fetchRepositories`).

JavaScript values that may be `undefined` are modelled as `Option`;
string interpolation of a possibly-undefined value renders `"undefined"`
exactly as JavaScript template literals do; `x || d` is modelled by a
function that treats the empty string as falsy, as JavaScript does.
Network effects are modelled by passing the provider's response (or the
failure mode of the call) as an explicit argument.
-/

/-- Configuration constant `TARGET_ORG` from the scripts. -/
def TARGET_ORG : String := "DapaLMS1"

/-- Configuration constant `REPO_NAME` (the catalog's own repository). -/
def REPO_NAME : String := "Catalog_of_Repos"

/-- Configuration constant `THUMBNAIL_WIDTH`. -/
def THUMBNAIL_WIDTH : Nat := 1200

/-- Configuration constant `THUMBNAIL_HEIGHT`. -/
def THUMBNAIL_HEIGHT : Nat := 630

/-- Outcome of one `fetch` call as the scripts observe it: a parsed JSON
body when `response.ok` holds, a non-success HTTP status otherwise, or the
`fetch` call itself throwing (transport failure). -/
inductive ApiResult (α : Type) where
  | ok (value : α)
  | httpError (status : Nat)
  | transportError
deriving DecidableEq, Repr

/-- One repository object of a provider JSON response.  Every field the
scripts read may be absent from the JSON (hence `Option`), except
`owner.login`, which the GitHub listing endpoints always supply (the code
of `part_001` dereferences it unconditionally). -/
structure ProviderRepo where
  name : Option String
  description : Option String
  language : Option String
  stargazers_count : Option Nat
  forks_count : Option Nat
  updated_at : Option String
  html_url : Option String
  owner_login : String
deriving DecidableEq, Repr

/-- The record the fetchers build and hand to the renderer (the object
literal of `fetchRepositories` lines 65–73 and `fetchRepositoryDetails`
lines 76–84).  Fields copied verbatim from the provider response stay
`Option`; fields the code defaults with `||` or date formatting are plain
strings. -/
structure RepoCardData where
  name : Option String
  description : String
  language : String
  stars : Option Nat
  forks : Option Nat
  updated_at : String
  html_url : Option String
deriving DecidableEq, Repr

/-- JavaScript `x || d` on a possibly-undefined string: `undefined` and
the empty string are falsy. -/
def jsOrString (v : Option String) (d : String) : String :=
  match v with
  | some s => if s = "" then d else s
  | none => d

/-- Abstraction of `new Date(s).toLocaleDateString()`.  Locale-dependent
date formatting is not reproduced; what the claims rely on is totality:
it always yields a display string, `"Invalid Date"` when the input is
absent (`new Date(undefined)` is an invalid date).  A present input is
kept verbatim. -/
def jsToLocaleDateString (s : Option String) : String :=
  match s with
  | some v => v
  | none => "Invalid Date"

/-- JavaScript template interpolation of a possibly-undefined string:
`${undefined}` renders as the text `undefined`. -/
def jsInterp (v : Option String) : String :=
  match v with
  | some s => s
  | none => "undefined"

/-- JavaScript template interpolation of a possibly-undefined number. -/
def jsInterpNat (v : Option Nat) : String :=
  match v with
  | some n => toString n
  | none => "undefined"

/-- The field mapping shared verbatim by `fetchRepositories`
(`generate_preview_script.js` lines 65–73) and `fetchRepositoryDetails`
(`part_000` lines 76–84): `description` and `language` are defaulted with
`||`, `updated_at` is date-formatted, and `name`, `stargazers_count`,
`forks_count`, `html_url` are copied through without a default. -/
def mapProviderRepo (repo : ProviderRepo) : RepoCardData :=
  { name := repo.name
    description := jsOrString repo.description "No description provided."
    language := jsOrString repo.language "N/A"
    stars := repo.stargazers_count
    forks := repo.forks_count
    updated_at := jsToLocaleDateString repo.updated_at
    html_url := repo.html_url }

/-- A listing response page: the parsed repository array together with
whether the response's `link` header advertises a `rel="next"` page.
`generate_preview_script.js` never reads the header; `part_001` does. -/
structure ListingPage where
  repos : List ProviderRepo
  hasNext : Bool
deriving DecidableEq, Repr

/-- `fetchRepositories` of `generate_preview_script.js` (lines 40–79):
one listing call against `/orgs/DapaLMS1/repos?per_page=100&type=all`;
on success, filter out the catalog's own repository and map the fields;
a non-success status throws into the catch, which — like a transport
failure — returns the empty array.  The `hasNext` component of the
response is never consulted: the code has no pagination loop. -/
def fetchRepositoriesOrg (response : ApiResult ListingPage) : List RepoCardData :=
  match response with
  | .ok page => (page.repos.filter (fun repo => repo.name != some REPO_NAME)).map mapProviderRepo
  | .httpError _ => []
  | .transportError => []

/-- The names one accepted page contributes in `fetchRepositoryNames` of
`part_001` (lines 76–83): keep repositories owned by `TARGET_ORG`, drop
the catalog repository, and take the `name` field verbatim. -/
def pageNames (page : ListingPage) : List (Option String) :=
  ((page.repos.filter (fun repo => repo.owner_login == TARGET_ORG)).filter
      (fun repo => repo.name != some REPO_NAME)).map (fun repo => repo.name)

/-- `fetchRepositoryNames` of `part_001` (lines 37–95): a `while` loop
over `/user/repos?per_page=100&page=N`.  On a success response the page's
names are appended and the loop continues iff the `link` header has
`rel="next"`; a non-success status throws, and that catch — like a
transport failure — stops the loop, keeping the names gathered so far.
`fuel` bounds the number of listing calls (the JavaScript loop terminates
only when the provider eventually clears `rel="next"` or fails). -/
def fetchRepositoryNames (provider : Nat → ApiResult ListingPage) :
    Nat → Nat → List (Option String)
  | 0, _ => []
  | fuel + 1, page =>
    match provider page with
    | .ok p =>
      if p.hasNext then pageNames p ++ fetchRepositoryNames provider fuel (page + 1)
      else pageNames p
    | .httpError _ => []
    | .transportError => []

/-- `fetchRepositories` of `part_002` (lines 40–73), used by the
clone-based variant: one call against `/orgs/DapaLMS1/repos?type=public`,
mapping every returned repository to its `name` — with no exclusion of
the catalog repository and no deduplication; any failure yields `[]`. -/
def fetchRepositoriesPublic (response : ApiResult (List ProviderRepo)) : List (Option String) :=
  match response with
  | .ok data => data.map (fun repo => repo.name)
  | .httpError _ => []
  | .transportError => []

/-- The placeholder record built by `fetchRepositoryDetails` of
`part_000` (lines 63–71) when the provider status is not OK.  `today`
stands for `new Date().toLocaleDateString()`. -/
def placeholderRecord (repoName : String) (today : String) : RepoCardData :=
  { name := some repoName
    description := "Could not fetch description from GitHub API."
    language := "Unknown"
    stars := some 0
    forks := some 0
    updated_at := today
    html_url := some ("https://github.com/" ++ TARGET_ORG ++ "/" ++ repoName) }

/-- `fetchRepositoryDetails` of `part_000` (lines 48–90): on a success
response, map the fields; on a non-success status, warn and return the
placeholder record; on the `fetch` call throwing (transport failure), the
catch logs and returns `null` — not the placeholder. -/
def fetchRepositoryDetails (repoName : String) (today : String)
    (response : ApiResult ProviderRepo) : Option RepoCardData :=
  match response with
  | .ok repo => some (mapProviderRepo repo)
  | .httpError _ => some (placeholderRecord repoName today)
  | .transportError => none

/-- The fetch loop of `part_000`'s `main` (lines 237–245): fetch details
for each configured target name and push only non-null results. -/
def collectRepoData (targets : List String) (today : String)
    (responses : String → ApiResult ProviderRepo) : List RepoCardData :=
  match targets with
  | [] => []
  | n :: rest =>
    match fetchRepositoryDetails n today (responses n) with
    | some d => d :: collectRepoData rest today responses
    | none => collectRepoData rest today responses

/-- A JavaScript error value as the scripts inspect it: a `code` (e.g.
`"ENOENT"`) and a `message`. -/
structure JsError where
  code : String
  message : String
deriving DecidableEq, Repr

/-- Outcome of the `fs.rm(dirPath, { recursive: true, force: true })`
call inside `removeDirectory`: success, or a rejection carrying an
error value. -/
inductive RmOutcome where
  | ok
  | err (e : JsError)
deriving DecidableEq, Repr

/-- The body of `removeDirectory`'s `try` block: the `fs.rm` await either
succeeds (logging success) or throws the error. -/
def jsRm (dirPath : String) (outcome : RmOutcome) : Except JsError (List String) :=
  match outcome with
  | .ok => .ok ["Successfully removed directory: " ++ dirPath]
  | .err e => .error e

/-- `removeDirectory` of `generate_preview_script.js` (lines 23–32) and
`part_000` (lines 29–38): the catch swallows every error, logging it only
when its code is not `ENOENT`.  The function therefore always resolves;
the returned value is the list of log lines. -/
def removeDirectory (dirPath : String) (outcome : RmOutcome) : Except JsError (List String) :=
  match jsRm dirPath outcome with
  | .ok logs => .ok logs
  | .error e =>
    .ok (if e.code = "ENOENT" then []
         else ["Error removing directory " ++ dirPath ++ ": " ++ e.message])

/-- Whether an awaited promise resolved (did not reject). -/
def promiseResolved (r : Except JsError (List String)) : Bool :=
  match r with
  | .ok _ => true
  | .error _ => false

/-- The language-to-accent-color lookup of `generateHtmlContent`
(`generate_preview_script.js` lines 91–98): a fixed object lookup with
`|| 'text-gray-400'` for unrecognized languages. -/
def languageColorOf (language : String) : String :=
  if language = "JavaScript" then "text-yellow-400"
  else if language = "TypeScript" then "text-blue-500"
  else if language = "Python" then "text-green-500"
  else if language = "HTML" then "text-red-500"
  else if language = "CSS" then "text-indigo-500"
  else if language = "N/A" then "text-gray-400"
  else "text-gray-400"

/-- Template text of `generateHtmlContent` before the `<title>`
interpolation of `repoData.name`. -/
def htmlSeg1 : String := "\n<!DOCTYPE html>\n<html lang=\"en\">\n<head>\n    <meta charset=\"UTF-8\">\n    <meta name=\"viewport\" content=\"width=device-width, initial-scale=1.0\">\n    <title>"

/-- Template text between the title name and the width interpolation. -/
def htmlSeg2 : String := " Preview</title>\n    <!-- Load Tailwind CSS via CDN -->\n    <script src=\"https://cdn.tailwindcss.com\"></script>\n    <style>\n        /* This is the 1200x630 container */\n        body \x7b\n            width: "

/-- Template text between the width and height interpolations. -/
def htmlSeg3 : String := "px;\n            height: "

/-- Template text between the height interpolation and the `<h1>`
interpolation of `repoData.name`. -/
def htmlSeg4 : String := "px;\n            margin: 0;\n            padding: 0;\n            overflow: hidden;\n            font-family: \x27Inter\x27, sans-serif;\n            background: #0d1117; /* GitHub Dark Mode background */\n        \x7d\n    </style>\n</head>\n<body class=\"flex items-center justify-center p-12\">\n    <div class=\"w-full h-full p-8 border-4 border-blue-600 rounded-xl flex flex-col justify-between shadow-2xl bg-gray-900\">\n        \n        <!-- Header -->\n        <div class=\"flex items-center justify-between\">\n            <h1 class=\"text-6xl font-extrabold text-white\">"

/-- Template text between the `<h1>` name and the `TARGET_ORG`
interpolation. -/
def htmlSeg5 : String := "</h1>\n            <div class=\"text-xl text-gray-500 font-mono\">\n                "

/-- Template text between `TARGET_ORG` and the description interpolation
(the description paragraph carries the `line-clamp-2` class, a purely
visual CSS truncation). -/
def htmlSeg6 : String := "\n            </div>\n        </div>\n\n        <!-- Description -->\n        <p class=\"text-3xl text-gray-300 my-4 line-clamp-2\">\n            "

/-- Template text between the description and the language-color
interpolation. -/
def htmlSeg7 : String := "\n        </p>\n\n        <!-- Footer / Metadata -->\n        <div class=\"flex justify-between items-end border-t border-gray-700 pt-4\">\n            <!-- Language -->\n            <div class=\"flex flex-col\">\n                <span class=\"text-sm font-semibold text-gray-400\">LANGUAGE</span>\n                <span class=\"text-2xl font-bold "

/-- Template text between the language color and the language name. -/
def htmlSeg8 : String := "\">"

/-- Template text between the language name and the stars
interpolation. -/
def htmlSeg9 : String := "</span>\n            </div>\n            \n            <!-- Stats -->\n            <div class=\"flex space-x-8 text-right\">\n                <div class=\"flex flex-col items-center\">\n                    <span class=\"text-sm font-semibold text-gray-400\">STARS</span>\n                    <span class=\"text-3xl font-bold text-yellow-300\">"

/-- Template text between the stars and forks interpolations. -/
def htmlSeg10 : String := "</span>\n                </div>\n                <div class=\"flex flex-col items-center\">\n                    <span class=\"text-sm font-semibold text-gray-400\">FORKS</span>\n                    <span class=\"text-3xl font-bold text-gray-300\">"

/-- Template text after the forks interpolation, to the end of the
template literal. -/
def htmlSeg11 : String := "</span>\n                </div>\n            </div>\n        </div>\n        \n    </div>\n</body>\n</html>\n    "

/-- `generateHtmlContent` of `generate_preview_script.js` (lines 89–163):
the template literal with its ten interpolation sites, in source order —
name (title), width, height, name (header), organization, description,
language color, language, stars, forks.  Every interpolation embeds the
field verbatim; the function performs no escaping. -/
def generateHtmlContent (repoData : RepoCardData) : String :=
  let languageColor := languageColorOf repoData.language
  htmlSeg1 ++ jsInterp repoData.name ++ htmlSeg2 ++ toString THUMBNAIL_WIDTH ++ htmlSeg3
    ++ toString THUMBNAIL_HEIGHT ++ htmlSeg4 ++ jsInterp repoData.name ++ htmlSeg5
    ++ TARGET_ORG ++ htmlSeg6 ++ repoData.description ++ htmlSeg7 ++ languageColor
    ++ htmlSeg8 ++ repoData.language ++ htmlSeg9 ++ jsInterpNat repoData.stars
    ++ htmlSeg10 ++ jsInterpNat repoData.forks ++ htmlSeg11

/-- `charsStartWith needle hay` decides whether `needle` is an initial
segment of `hay`. -/
def charsStartWith : List Char → List Char → Bool
  | [], _ => true
  | _ :: _, [] => false
  | a :: as, b :: bs => a == b && charsStartWith as bs

/-- `charsContain needle hay` decides whether `needle` occurs
contiguously inside `hay`. -/
def charsContain (needle : List Char) : List Char → Bool
  | [] => needle.isEmpty
  | b :: bs => charsStartWith needle (b :: bs) || charsContain needle bs

/-- Substring occurrence on strings, via the character lists. -/
def strContains (s pat : String) : Bool := charsContain pat.data s.data

/-- Where, if anywhere, one target's capture fails inside
`generatePreviewCard` (`generate_preview_script.js` lines 177–206):
`browser.newPage()` throwing, `page.setContent` (navigation) throwing,
`page.screenshot` throwing, or the whole sequence succeeding. -/
inductive CaptureStep where
  | ok
  | failNewPage
  | failSetContent
  | failScreenshot
deriving DecidableEq, Repr

/-- The observable state the processing loop threads through target
iterations: how many browser pages are open in the shared browser, and
which artifact files have been written to the output directory. -/
structure RunState where
  openPages : Nat
  artifacts : List String
deriving DecidableEq, Repr

/-- `generatePreviewCard` of `generate_preview_script.js` (lines
172–206), as a state transformer.  The entire body is wrapped in
`try`/`catch` and the catch only logs — the function is total (never
rethrows).  `page.close()` is executed only on the success path, after
the screenshot: when `setContent` or `screenshot` throws, the page opened
by `browser.newPage()` stays open; an artifact is recorded only when the
screenshot succeeds. -/
def generatePreviewCard (name : String) (step : CaptureStep) (st : RunState) : RunState :=
  match step with
  | .failNewPage => st
  | .failSetContent => { st with openPages := st.openPages + 1 }
  | .failScreenshot => { st with openPages := st.openPages + 1 }
  | .ok => { st with artifacts := st.artifacts ++ [name ++ ".png"] }

/-- The processing loop of `main` (`generate_preview_script.js` lines
248–250): strictly sequential iteration of `generatePreviewCard` over the
resolved repositories (`steps` gives each target's capture outcome, keyed
by the interpolated name used for its artifact path). -/
def processLoop (steps : String → CaptureStep) (repos : List RepoCardData)
    (st : RunState) : RunState :=
  match repos with
  | [] => st
  | r :: rest =>
    processLoop steps rest (generatePreviewCard (jsInterp r.name) (steps (jsInterp r.name)) st)

/-- The process-level outcome of one run: the exit status and the
artifact files written. -/
structure MainResult where
  exitCode : Nat
  artifacts : List String
deriving DecidableEq, Repr

/-- `main` of `generate_preview_script.js` (lines 211–268): exit 1 when
`GITHUB_TOKEN` is absent; an empty resolved list is a clean early return
(exit 0, no artifacts); a browser-launch failure is caught by the outer
catch and exits 1; otherwise the loop runs to completion and the process
exits 0 regardless of per-target capture failures. -/
def jsMain (tokenPresent : Bool) (listing : ApiResult ListingPage) (launchOk : Bool)
    (steps : String → CaptureStep) : MainResult :=
  if tokenPresent = false then { exitCode := 1, artifacts := [] }
  else
    let repositories := fetchRepositoriesOrg listing
    if repositories.isEmpty then { exitCode := 0, artifacts := [] }
    else if launchOk = false then { exitCode := 1, artifacts := [] }
    else
      { exitCode := 0
        artifacts := (processLoop steps repositories { openPages := 0, artifacts := [] }).artifacts }

/-- The capture outcomes in which a page was opened but never closed
(the `catch` of `generatePreviewCard` does not close the page). -/
def leaksPage : CaptureStep → Bool
  | .ok => false
  | .failNewPage => false
  | .failSetContent => true
  | .failScreenshot => true

/-- Whether a fetched record is missing a field that the provider
response can omit (`name`, star count, fork count, canonical URL);
`description`, `language` and `updated_at` are plain strings, so they
can never be missing. -/
def hasMissingField (d : RepoCardData) : Bool :=
  d.name.isNone || d.stars.isNone || d.forks.isNone || d.html_url.isNone

/-- A fully-populated provider response object, for concrete runs. -/
def sampleRepo (repoName : String) : ProviderRepo :=
  { name := some repoName
    description := some ("About " ++ repoName)
    language := some "JavaScript"
    stargazers_count := some 7
    forks_count := some 2
    updated_at := some "2024-01-01"
    html_url := some ("https://github.com/DapaLMS1/" ++ repoName)
    owner_login := "DapaLMS1" }

/-- A provider response object whose `stargazers_count` field is absent
from the JSON. -/
def missingStarsRepo : ProviderRepo :=
  { sampleRepo "sparse-repo" with stargazers_count := none }

/-- The provider's listing entry for the catalog repository itself. -/
def catalogProviderRepo : ProviderRepo := sampleRepo "Catalog_of_Repos"

/-- The metadata record fixed by the spec's renderer test vector:
name `demo`, a 500-character description, language `Go`, 42 stars,
3 forks. -/
def demoRecord : RepoCardData :=
  { name := some "demo"
    description := String.mk (List.replicate 500 'x')
    language := "Go"
    stars := some 42
    forks := some 3
    updated_at := "1/1/2024"
    html_url := some "https://github.com/DapaLMS1/demo" }

/-- A metadata record whose name carries markup-significant characters,
as an attacker-controlled repository name would. -/
def evilRecord : RepoCardData :=
  { name := some "<script>alert(1)</script>"
    description := "<img src=x onerror=alert(1)>"
    language := "Go"
    stars := some 0
    forks := some 0
    updated_at := "1/1/2024"
    html_url := some "https://github.com/DapaLMS1/evil" }

/-- A run configuration in which the capture of `broken-repo` fails at
navigation (`setContent`) and every other target succeeds. -/
def brokenSteps : String → CaptureStep :=
  fun n => if n = "broken-repo" then CaptureStep.failSetContent else CaptureStep.ok

/-- A successful listing response holding a good target and the target
whose capture will fail. -/
def demoListing : ApiResult ListingPage :=
  ApiResult.ok { repos := [sampleRepo "good-repo", sampleRepo "broken-repo"], hasNext := false }

/-- A provider whose listing spans two pages: page 1 advertises a
`rel="next"` continuation, page 2 is the last. -/
def twoPageProvider : Nat → ApiResult ListingPage :=
  fun page =>
    if page = 1 then ApiResult.ok { repos := [sampleRepo "repo-page-1"], hasNext := true }
    else if page = 2 then ApiResult.ok { repos := [sampleRepo "repo-page-2"], hasNext := false }
    else ApiResult.httpError 404

theorem charsStartWith_append (t b : List Char) : charsStartWith t (t ++ b) = true := by
  induction t with
  | nil => rfl
  | cons c cs ih => simp [charsStartWith, ih]

theorem charsContain_append (t a b : List Char) : charsContain t (a ++ (t ++ b)) = true := by
  induction a with
  | nil =>
    cases t with
    | nil =>
      cases b with
      | nil => rfl
      | cons x xs => simp [charsContain, charsStartWith]
    | cons c cs =>
      have h : charsContain (c :: cs) ([] ++ ((c :: cs) ++ b)) =
          (charsStartWith (c :: cs) ((c :: cs) ++ b) || charsContain (c :: cs) (cs ++ b)) := rfl
      rw [h, charsStartWith_append, Bool.true_or]
  | cons c cs ih => simp [charsContain, ih]

/-- Completeness of the substring test on an explicit decomposition. -/
theorem strContains_append (a t b : String) : strContains (a ++ (t ++ b)) t = true := by
  show charsContain t.data (a ++ (t ++ b)).data = true
  rw [String.data_append, String.data_append]
  exact charsContain_append t.data a.data b.data

theorem processLoop_artifacts (steps : String → CaptureStep) (repos : List RepoCardData)
    (st : RunState) :
    (processLoop steps repos st).artifacts =
      st.artifacts ++ (repos.filter (fun r => steps (jsInterp r.name) == CaptureStep.ok)).map
        (fun r => jsInterp r.name ++ ".png") := by
  induction repos generalizing st with
  | nil => simp [processLoop]
  | cons r rest ih =>
    cases h : steps (jsInterp r.name) <;>
      simp [processLoop, generatePreviewCard, ih, h, List.filter_cons]

theorem processLoop_openPages (steps : String → CaptureStep) (repos : List RepoCardData)
    (st : RunState) :
    (processLoop steps repos st).openPages =
      st.openPages + (repos.filter (fun r => leaksPage (steps (jsInterp r.name)))).length := by
  induction repos generalizing st with
  | nil => simp [processLoop]
  | cons r rest ih =>
    cases h : steps (jsInterp r.name) <;>
      simp [processLoop, generatePreviewCard, ih, h, List.filter_cons, leaksPage] <;> omega

theorem jsOrString_ne_empty (v : Option String) (d : String) (hd : d ≠ "") :
    jsOrString v d ≠ "" := by
  cases v with
  | none => simpa [jsOrString] using hd
  | some s =>
    by_cases hs : s = "" <;> simp [jsOrString, hs, hd]

/-- C1 counterexample: when the `fetch` call itself throws (transport
failure), `fetchRepositoryDetails` returns `null` — not the placeholder
record — and the `main` loop of `part_000` then skips the target. -/
theorem C1_transport_failure_returns_null :
    fetchRepositoryDetails "Repo-Example-1" "1/1/2024" ApiResult.transportError = none ∧
    (none : Option RepoCardData) ≠ some (placeholderRecord "Repo-Example-1" "1/1/2024") ∧
    collectRepoData ["Repo-Example-1"] "1/1/2024" (fun _ => ApiResult.transportError) = [] := by
  refine ⟨rfl, by simp, rfl⟩

/-- C1 (amended): on a non-success provider status
`fetchRepositoryDetails` returns the fully-populated placeholder record
(name = identifier, the fixed "could not fetch" description, language
`Unknown`, zero counts, current-time timestamp) and the batch continues
with that target; on a transport failure it returns `null` and the batch
skips the target. -/
theorem C1_placeholder_on_http_error_null_on_transport (n today : String) (status : Nat)
    (rest : List String) :
    fetchRepositoryDetails n today (ApiResult.httpError status) =
      some (placeholderRecord n today) ∧
    (placeholderRecord n today).name = some n ∧
    (placeholderRecord n today).description =
      "Could not fetch description from GitHub API." ∧
    (placeholderRecord n today).language = "Unknown" ∧
    (placeholderRecord n today).stars = some 0 ∧
    (placeholderRecord n today).forks = some 0 ∧
    (placeholderRecord n today).updated_at = today ∧
    collectRepoData (n :: rest) today (fun _ => ApiResult.httpError status) =
      placeholderRecord n today ::
        collectRepoData rest today (fun _ => ApiResult.httpError status) ∧
    collectRepoData (n :: rest) today (fun _ => ApiResult.transportError) =
      collectRepoData rest today (fun _ => ApiResult.transportError) := by
  exact ⟨rfl, rfl, rfl, rfl, rfl, rfl, rfl, rfl, rfl⟩

/-- C2: a per-target capture failure is caught inside
`generatePreviewCard` and never rethrown (the function is total in the
model), artifacts for all targets whose capture succeeds are still
produced in order, the run exits 0, and a non-zero exit can only come
from a setup failure (missing credential or browser-launch failure). -/
theorem C2_per_target_failure_isolation (tokenPresent launchOk : Bool)
    (listing : ApiResult ListingPage) (steps : String → CaptureStep) :
    (jsMain true listing true steps).exitCode = 0 ∧
    (jsMain true listing true steps).artifacts =
      ((fetchRepositoriesOrg listing).filter
          (fun r => steps (jsInterp r.name) == CaptureStep.ok)).map
        (fun r => jsInterp r.name ++ ".png") ∧
    ((jsMain tokenPresent listing launchOk steps).exitCode ≠ 0 →
      tokenPresent = false ∨ launchOk = false) := by
  have hmain : jsMain true listing true steps =
      (if (fetchRepositoriesOrg listing).isEmpty then { exitCode := 0, artifacts := [] }
       else { exitCode := 0
              artifacts := (processLoop steps (fetchRepositoriesOrg listing)
                  { openPages := 0, artifacts := [] }).artifacts }) := by
    simp [jsMain]
  refine ⟨?_, ?_, ?_⟩
  · rw [hmain]; split <;> rfl
  · rw [hmain]; split
    · next h =>
      rw [List.isEmpty_iff] at h
      simp [h]
    · rw [processLoop_artifacts]; rfl
  · intro h
    cases tokenPresent with
    | false => exact Or.inl rfl
    | true =>
      cases launchOk with
      | false => exact Or.inr rfl
      | true =>
        exact absurd h (by rw [hmain]; split <;> simp)

/-- Witness for C2 at a concrete run: one of two targets fails
navigation, the other target's artifact is still written, and the
only-setup-failures-exit-nonzero implication is exercised. -/
theorem C2_per_target_failure_isolation_witness :
    (jsMain true demoListing true brokenSteps).artifacts = ["good-repo.png"] ∧
    (jsMain true demoListing true brokenSteps).exitCode = 0 ∧
    (true = false ∨ false = false) := by
  have h := C2_per_target_failure_isolation true false demoListing brokenSteps
  exact ⟨h.2.1.trans (by decide), h.1, h.2.2 (by decide)⟩

/-- C3: when the repository-listing call fails outright (non-success
status or transport error), `fetchRepositories` returns the empty array
instead of raising, and `main` then exits 0 having written zero artifact
files. -/
theorem C3_listing_failure_is_clean_noop (status : Nat) (launchOk : Bool)
    (steps : String → CaptureStep) :
    fetchRepositoriesOrg (ApiResult.httpError status) = [] ∧
    fetchRepositoriesOrg ApiResult.transportError = [] ∧
    jsMain true (ApiResult.httpError status) launchOk steps =
      { exitCode := 0, artifacts := [] } ∧
    jsMain true ApiResult.transportError launchOk steps =
      { exitCode := 0, artifacts := [] } := by
  exact ⟨rfl, rfl, rfl, rfl⟩

/-- C4 counterexample: a provider response whose `stargazers_count`
field is absent yields an output record whose star count is absent —
the fetcher gives `stars`/`forks` no default. -/
theorem C4_missing_stars_stay_missing :
    (mapProviderRepo missingStarsRepo).stars = none ∧
    hasMissingField (mapProviderRepo missingStarsRepo) = true ∧
    fetchRepositoryDetails "sparse-repo" "1/1/2024" (ApiResult.ok missingStarsRepo) =
      some (mapProviderRepo missingStarsRepo) := by
  exact ⟨rfl, rfl, rfl⟩

/-- C4 (amended): only `description` and `language` receive total
defaults (and the formatted timestamp is always a string); `name`,
`starCount`, `forkCount` and the URL are copied through unchanged, so
the output record is missing exactly the fields the provider response
omitted among those four. -/
theorem C4_total_defaults_only_for_text_fields (repo : ProviderRepo) :
    hasMissingField (mapProviderRepo repo) =
      (repo.name.isNone || repo.stargazers_count.isNone || repo.forks_count.isNone ||
        repo.html_url.isNone) ∧
    (mapProviderRepo repo).description ≠ "" ∧
    (mapProviderRepo repo).language ≠ "" := by
  refine ⟨rfl, ?_, ?_⟩
  · exact jsOrString_ne_empty repo.description "No description provided." (by simp)
  · exact jsOrString_ne_empty repo.language "N/A" (by simp)

theorem not_mem_pageNames (p : ListingPage) : some REPO_NAME ∉ pageNames p := by
  intro h
  simp only [pageNames, List.mem_map, List.mem_filter] at h
  obtain ⟨r, ⟨_, hne⟩, hname⟩ := h
  rw [hname] at hne
  simp at hne

/-- C5 counterexample: the public-org listing of the clone-based variant
applies no exclusion and no deduplication — a response listing the
catalog repository twice is returned verbatim, so the self-referential
identifier appears, and appears twice. -/
theorem C5_public_listing_keeps_catalog_and_duplicates :
    fetchRepositoriesPublic (ApiResult.ok [catalogProviderRepo, catalogProviderRepo]) =
      [some "Catalog_of_Repos", some "Catalog_of_Repos"] := by
  rfl

/-- C5 (amended): the organization-listing and credential-scoped
resolvers exclude the catalog's own identifier `Catalog_of_Repos`; the
public-org listing used by the clone-based variant applies no such
exclusion, and no resolver deduplicates — duplicates in the provider
response are preserved verbatim. -/
theorem C5_org_and_credential_listings_exclude_catalog
    (listing : ApiResult ListingPage) (provider : Nat → ApiResult ListingPage)
    (fuel page : Nat) :
    (∀ r ∈ fetchRepositoriesOrg listing, r.name ≠ some REPO_NAME) ∧
    some REPO_NAME ∉ fetchRepositoryNames provider fuel page := by
  constructor
  · intro r hr
    cases listing with
    | ok p =>
      simp only [fetchRepositoriesOrg, List.mem_map, List.mem_filter] at hr
      obtain ⟨a, ⟨_, hne⟩, rfl⟩ := hr
      simpa [mapProviderRepo] using hne
    | httpError status => simp [fetchRepositoriesOrg] at hr
    | transportError => simp [fetchRepositoriesOrg] at hr
  · induction fuel generalizing page with
    | zero => simp [fetchRepositoryNames]
    | succ n ih =>
      cases hp : provider page with
      | ok p =>
        simp only [fetchRepositoryNames, hp]
        split
        · simp only [List.mem_append, not_or]
          exact ⟨not_mem_pageNames p, ih (page + 1)⟩
        · exact not_mem_pageNames p
      | httpError status => simp [fetchRepositoryNames, hp]
      | transportError => simp [fetchRepositoryNames, hp]

/-- Witness for C5 at a concrete run: the mapped record of a listed
repository is not the catalog identifier, and a failed credential-scoped
listing contains no catalog identifier. -/
theorem C5_org_and_credential_listings_exclude_catalog_witness :
    (mapProviderRepo (sampleRepo "good-repo")).name ≠ some REPO_NAME ∧
    some REPO_NAME ∉ fetchRepositoryNames (fun _ => ApiResult.transportError) 1 1 := by
  have h := C5_org_and_credential_listings_exclude_catalog
      (ApiResult.ok { repos := [sampleRepo "good-repo"], hasNext := false })
      (fun _ => ApiResult.transportError) 1 1
  exact ⟨h.1 (mapProviderRepo (sampleRepo "good-repo")) (by decide), h.2⟩

/-- C6 counterexample: the organization-listing variant makes a single
request and ignores the response's continuation signal — with a first
page advertising `rel="next"`, the second page's repository never appears
in its output, while the credential-scoped paginated variant does
collect both pages. -/
theorem C6_org_listing_drops_later_pages :
    (fetchRepositoriesOrg
        (ApiResult.ok { repos := [sampleRepo "repo-page-1"], hasNext := true })).map
      (fun r => r.name) = [some "repo-page-1"] ∧
    some "repo-page-2" ∉
      (fetchRepositoriesOrg
          (ApiResult.ok { repos := [sampleRepo "repo-page-1"], hasNext := true })).map
        (fun r => r.name) ∧
    fetchRepositoryNames twoPageProvider 5 1 = [some "repo-page-1", some "repo-page-2"] := by
  refine ⟨rfl, by decide, by decide⟩

/-- C6 (amended): the organization-listing variant issues one listing
request and never follows pagination — its output is unchanged when the
continuation signal is cleared; only the credential-scoped variant
follows the `rel="next"` continuation page by page until the provider
clears it. -/
theorem C6_pagination_only_in_credential_variant (p : ListingPage)
    (provider : Nat → ApiResult ListingPage) (fuel page : Nat) :
    fetchRepositoriesOrg (ApiResult.ok p) =
      fetchRepositoriesOrg (ApiResult.ok { repos := p.repos, hasNext := false }) ∧
    (provider page = ApiResult.ok p →
      fetchRepositoryNames provider (fuel + 1) page =
        (if p.hasNext then
          pageNames p ++ fetchRepositoryNames provider fuel (page + 1)
         else pageNames p)) := by
  constructor
  · rfl
  · intro h
    simp [fetchRepositoryNames, h]

/-- Witness for C6 at the two-page provider: page 1 advertises a next
page and the paginated variant recurses into page 2. -/
theorem C6_pagination_only_in_credential_variant_witness :
    fetchRepositoriesOrg
        (ApiResult.ok { repos := [sampleRepo "repo-page-1"], hasNext := true }) =
      fetchRepositoriesOrg
        (ApiResult.ok { repos := [sampleRepo "repo-page-1"], hasNext := false }) ∧
    fetchRepositoryNames twoPageProvider 5 1 =
      (if ({ repos := [sampleRepo "repo-page-1"], hasNext := true } : ListingPage).hasNext then
        pageNames { repos := [sampleRepo "repo-page-1"], hasNext := true } ++
          fetchRepositoryNames twoPageProvider 4 2
       else pageNames { repos := [sampleRepo "repo-page-1"], hasNext := true }) := by
  have h := C6_pagination_only_in_credential_variant
      { repos := [sampleRepo "repo-page-1"], hasNext := true } twoPageProvider 4 1
  exact ⟨h.1, h.2 (by decide)⟩

set_option maxRecDepth 8000 in
/-- C7 counterexample: a repository name and description carrying
markup-significant characters pass into the rendered document verbatim —
`generateHtmlContent` performs no escaping, so attacker-controlled
fields inject markup. -/
theorem C7_unescaped_markup_injection :
    strContains (generateHtmlContent evilRecord) "<script>alert(1)</script>" = true ∧
    strContains (generateHtmlContent evilRecord) "<img src=x onerror=alert(1)>" = true := by
  decide

/-- C7 (amended): the renderer interpolates every text field verbatim —
for every metadata record the output markup contains the name and the
description character-for-character unescaped, so markup-significant
characters in them become markup of the rendered document. -/
theorem C7_fields_interpolated_verbatim (r : RepoCardData) :
    (∃ a b, generateHtmlContent r = a ++ (jsInterp r.name ++ b)) ∧
    (∃ a b, generateHtmlContent r = a ++ (r.description ++ b)) := by
  constructor
  · refine ⟨htmlSeg1,
      htmlSeg2 ++ (toString THUMBNAIL_WIDTH ++ (htmlSeg3 ++ (toString THUMBNAIL_HEIGHT ++
        (htmlSeg4 ++ (jsInterp r.name ++ (htmlSeg5 ++ (TARGET_ORG ++ (htmlSeg6 ++
          (r.description ++ (htmlSeg7 ++ (languageColorOf r.language ++ (htmlSeg8 ++
            (r.language ++ (htmlSeg9 ++ (jsInterpNat r.stars ++ (htmlSeg10 ++
              (jsInterpNat r.forks ++ htmlSeg11))))))))))))))))), ?_⟩
    simp only [generateHtmlContent, String.append_assoc]
  · refine ⟨htmlSeg1 ++ (jsInterp r.name ++ (htmlSeg2 ++ (toString THUMBNAIL_WIDTH ++
      (htmlSeg3 ++ (toString THUMBNAIL_HEIGHT ++ (htmlSeg4 ++ (jsInterp r.name ++
        (htmlSeg5 ++ (TARGET_ORG ++ htmlSeg6))))))))),
      htmlSeg7 ++ (languageColorOf r.language ++ (htmlSeg8 ++ (r.language ++
        (htmlSeg9 ++ (jsInterpNat r.stars ++ (htmlSeg10 ++
          (jsInterpNat r.forks ++ htmlSeg11))))))), ?_⟩
    simp only [generateHtmlContent, String.append_assoc]

set_option maxRecDepth 8000 in
/-- C8 counterexample: for the spec's fixed demo record the renderer
output contains the full 500-character description verbatim — the
output's description is not textually truncated (the `line-clamp-2`
class truncates only visually). -/
theorem C8_output_contains_full_description :
    strContains (generateHtmlContent demoRecord) (String.mk (List.replicate 500 'x')) = true := by
  decide

set_option maxRecDepth 8000 in
/-- C8 (amended): for the fixed demo record the renderer output contains
the literal substrings `demo`, `42` and `Go`, and it contains the full
500-character description together with the `line-clamp-2` styling class
— truncation of the description is visual (CSS), not textual. -/
theorem C8_demo_record_rendering :
    strContains (generateHtmlContent demoRecord) "demo" = true ∧
    strContains (generateHtmlContent demoRecord) "42" = true ∧
    strContains (generateHtmlContent demoRecord) "Go" = true ∧
    strContains (generateHtmlContent demoRecord) (String.mk (List.replicate 500 'x')) = true ∧
    strContains (generateHtmlContent demoRecord) "line-clamp-2" = true := by
  decide

/-- C9: when the capture step throws (`setContent` or `screenshot`),
the page opened for that target is never closed — `page.close()` lies on
the success path only — so across a run each failing target leaves one
more page open in the shared browser, and the no-open-pages-between-
iterations invariant fails on the error path. -/
theorem C9_failed_capture_leaks_page (nm : String) (steps : String → CaptureStep)
    (repos : List RepoCardData) (st : RunState) :
    (generatePreviewCard nm CaptureStep.failSetContent st).openPages = st.openPages + 1 ∧
    (generatePreviewCard nm CaptureStep.failScreenshot st).openPages = st.openPages + 1 ∧
    (generatePreviewCard nm CaptureStep.failSetContent st).artifacts = st.artifacts ∧
    (generatePreviewCard nm CaptureStep.failScreenshot st).artifacts = st.artifacts ∧
    (generatePreviewCard nm CaptureStep.ok st).openPages = st.openPages ∧
    (processLoop steps repos st).openPages =
      st.openPages + (repos.filter (fun r => leaksPage (steps (jsInterp r.name)))).length := by
  exact ⟨rfl, rfl, rfl, rfl, rfl, processLoop_openPages steps repos st⟩

/-- C10: `removeDirectory` always resolves and never rejects: a
successful removal logs success, a not-found (`ENOENT`) rejection of the
underlying `fs.rm` is swallowed silently, and any other rejection is
logged and swallowed — so directory cleanup failure can never abort
setup, per-target processing, or teardown. -/
theorem C10_removeDirectory_never_rejects (dirPath msg : String) (outcome : RmOutcome) :
    promiseResolved (removeDirectory dirPath outcome) = true ∧
    removeDirectory dirPath (RmOutcome.err { code := "ENOENT", message := msg }) =
      Except.ok [] ∧
    removeDirectory dirPath (RmOutcome.err { code := "EACCES", message := msg }) =
      Except.ok ["Error removing directory " ++ dirPath ++ ": " ++ msg] ∧
    removeDirectory dirPath RmOutcome.ok =
      Except.ok ["Successfully removed directory: " ++ dirPath] := by
  refine ⟨?_, by simp [removeDirectory, jsRm], by simp [removeDirectory, jsRm], rfl⟩
  cases outcome with
  | ok => rfl
  | err e => rfl
